import Mathlib

/-!
Verification development for the Riptide flood-simulation backend
(`src/backend/main.py`).

The embedding is shallow: Python floats are modelled as real numbers,
Python ints as integers, and the geographic coordinate arithmetic (which
only ever divides by 1201) as rational numbers.  Python's list semantics
are modelled explicitly where they matter:

* a list index is resolved as Python resolves it (`pyIdx`): indices in
  `[0, len)` address directly, indices in `[-len, 0)` wrap from the end,
  anything else raises `IndexError`;
* the delta storage built by `tick` with `[[0] * (maxX+1)] * (maxY+1)`
  is a list of REFERENCES to one single allocated row, so it is modelled
  as a pointer table (`PyDeltas.rows`) into a heap of allocated rows
  (`PyDeltas.heap`), exactly one row being allocated;
* operations that can raise return `Except String _` (an `Except.error`
  is Python raising), and `Option` models an operation that raises
  `IndexError` at the point of use; `tick`'s bare `try/except: pass`
  around neighbour delta writes turns such a failure into a no-op.
-/

set_option maxHeartbeats 1600000

noncomputable section

/-- Python list index resolution: `some` of the physical index, or `none`
for an index that raises `IndexError`. -/
def pyIdx (n : ℕ) (i : ℤ) : Option ℕ :=
  if 0 ≤ i ∧ i < (n : ℤ) then some i.toNat
  else if -(n : ℤ) ≤ i ∧ i < 0 then some (i + (n : ℤ)).toNat
  else none

/-- The grid object of `main.py` (`class hgtMap`): `data[y][x]` is the cell
at point `(x, y)` holding the pair (height, water).  Heights and water
levels are Python numbers, modelled as reals. -/
structure hgtMap where
  data : List (List (ℝ × ℝ))
  minFloodHeight : ℝ

/-- `self.maxX = len(hgtStartData[0]) - 1`. -/
def hgtMap.maxX (m : hgtMap) : ℤ :=
  ((m.data.headD []).length : ℤ) - 1

/-- `self.maxY = len(hgtStartData) - 1`. -/
def hgtMap.maxY (m : hgtMap) : ℤ :=
  ((m.data.length : ℤ)) - 1

/-- `getHeight` (lines 56-62): the sentinel 10000000 for any out-of-bounds
coordinate, else `data[y][x][0]`. -/
def hgtMap.getHeight (m : hgtMap) (x y : ℤ) : ℝ :=
  if x > m.maxX ∨ y > m.maxY ∨ x < 0 ∨ y < 0 then 10000000
  else ((m.data.getD y.toNat []).getD x.toNat (0, 0)).1

/-- `getWater` (lines 64-70): raises for any out-of-bounds coordinate,
else returns `data[y][x][1]`. -/
def hgtMap.getWater (m : hgtMap) (x y : ℤ) : Except String ℝ :=
  if x > m.maxX ∨ y > m.maxY ∨ x < 0 ∨ y < 0 then
    Except.error "accessed an invalid position in method getWater"
  else Except.ok ((m.data.getD y.toNat []).getD x.toNat (0, 0)).2

/-- Direct (in-bounds) water lookup `data[y][x][1]`, for stating results. -/
def hgtMap.waterAt (m : hgtMap) (x y : ℤ) : ℝ :=
  ((m.data.getD y.toNat []).getD x.toNat (0, 0)).2

/-- `setWater` (lines 72-75).  The source's bounds guard is
`if x > maxX or y > maxY or x < 0 or y < 0: pass` — its body is `pass`,
so it has no effect whatsoever and the write `data[y][x][1] = waterLevel`
is unconditional, with Python's index semantics: indices beyond the end
raise `IndexError`, negative indices down to minus the length wrap. -/
def hgtMap.setWater (m : hgtMap) (x y : ℤ) (waterLevel : ℝ) : Except String hgtMap :=
  match pyIdx m.data.length y with
  | none => Except.error "IndexError"
  | some yi =>
    let row := m.data.getD yi []
    match pyIdx row.length x with
    | none => Except.error "IndexError"
    | some xi =>
      Except.ok ⟨m.data.set yi (row.set xi ((row.getD xi (0, 0)).1, waterLevel)),
                 m.minFloodHeight⟩

/-- Python `int(q)`: truncation toward zero. -/
def pyTrunc (q : ℚ) : ℤ :=
  if q < 0 then ⌈q⌉ else ⌊q⌋

/-- `pointToLatLong` (lines 39-45): `[41 - y/1201, -(73 + x/1201)]`.
The source clamps `x` and `y` to at most 1 AFTER `deltaX`/`deltaY` are
computed; `x` and `y` are not used again, so the clamp has no effect. -/
def hgtMap.pointToLatLong (x y : ℤ) : ℚ × ℚ :=
  let deltaX : ℚ := (x : ℚ) * 1 / 1201
  let deltaY : ℚ := (y : ℚ) * 1 / 1201
  (41 - deltaY, -(73 + deltaX))

/-- `latLongToPointApprox` (lines 47-54): truncate, then clamp each
index into `[0, 1200]`; returns `[x, y]`. -/
def hgtMap.latLongToPointApprox (lat long : ℚ) : ℤ × ℤ :=
  let y0 := pyTrunc (-1201 * (lat - 41))
  let x0 := pyTrunc (-1201 * (long + 73))
  let y1 := if y0 > 1200 then 1200 else y0
  let x1 := if x0 > 1200 then 1200 else x0
  let y2 := if y1 < 0 then 0 else y1
  let x2 := if x1 < 0 then 0 else x1
  (x2, y2)

/-- `weight` (lines 98-99): `1.0 / (1 + 2.71828 ** (-1 * delta / 3))`,
with real exponentiation. -/
def weight (delta : ℝ) : ℝ :=
  1 / (1 + (2.71828 : ℝ) ^ (-1 * delta / 3))

/-- The delta storage `deltas = [[0] * (maxX + 1)] * (maxY + 1)` built at
line 103: `rows` holds one heap pointer per row index and `heap` the
allocated rows.  The Python expression allocates the inner `[0] * (maxX+1)`
once and repeats a reference to it `maxY + 1` times. -/
structure PyDeltas where
  rows : List ℕ
  heap : List (List ℝ)

/-- `[[0] * w] * h`: one allocated zero row, `h` references to it. -/
def mkDeltas (w h : ℕ) : PyDeltas :=
  ⟨List.replicate h 0, [List.replicate w 0]⟩

/-- Reading `deltas[j][i]`; `none` is `IndexError`. -/
def PyDeltas.read (d : PyDeltas) (j i : ℤ) : Option ℝ :=
  match pyIdx d.rows.length j with
  | none => none
  | some jp =>
    let ptr := d.rows.getD jp 0
    let row := d.heap.getD ptr []
    match pyIdx row.length i with
    | none => none
    | some ip => some (row.getD ip 0)

/-- Writing `deltas[j][i] = v`; `none` is `IndexError`.  The store goes to
the heap row that `rows[j]` points to — rows sharing a pointer share the
store. -/
def PyDeltas.write (d : PyDeltas) (j i : ℤ) (v : ℝ) : Option PyDeltas :=
  match pyIdx d.rows.length j with
  | none => none
  | some jp =>
    let ptr := d.rows.getD jp 0
    let row := d.heap.getD ptr []
    match pyIdx row.length i with
    | none => none
    | some ip => some ⟨d.rows, d.heap.set ptr (row.set ip v)⟩

/-- The 3x3 neighbourhood `range(x-1, x+2) x range(y-1, y+2)` in the
source's iteration order (`i` outer, `j` inner). -/
def nbhd (x y : ℤ) : List (ℤ × ℤ) :=
  [(x - 1, y - 1), (x - 1, y), (x - 1, y + 1),
   (x, y - 1), (x, y), (x, y + 1),
   (x + 1, y - 1), (x + 1, y), (x + 1, y + 1)]

/-- The `weightSum` accumulated at lines 112-115: the sum over the whole
3x3 neighbourhood of `weight(getHeight(i, j) - midHeight)`, where
`midHeight = getHeight(x, y)`.  Off-grid neighbours are included, with
their sentinel height. -/
def weightSumAt (m : hgtMap) (x y : ℤ) : ℝ :=
  ((nbhd x y).map (fun p => weight (m.getHeight p.1 p.2 - m.getHeight x y))).sum

/-- The value assigned to every non-center neighbour at line 123:
`waterToSpread * weight(0) / weightSum`.  Note the numerator uses
`weight(0)`, not the neighbour's own weight. -/
def neighborShare (m : hgtMap) (x y : ℤ) : ℝ :=
  m.waterAt x y * weight 0 / weightSumAt m x y

/-- The per-neighbour share the specification's step 4 describes:
`w0 * weight(height(neighbor) - height(x, y)) / weightSum`.  Stated from
the spec's words, to be compared with `neighborShare`. -/
def specNeighborShare (m : hgtMap) (x y i j : ℤ) : ℝ :=
  m.waterAt x y * weight (m.getHeight i j - m.getHeight x y) / weightSumAt m x y

/-- Lines 109-125, the spreading pass of one processed cell: the writes
`deltas[j][i] = ...` over the neighbourhood, the center (line 120, no
`try`) propagating an `IndexError`, every other neighbour (lines 122-125)
swallowing it. -/
def spreadCell (m : hgtMap) (x y : ℤ) (waterToSpread : ℝ) (d : PyDeltas) :
    Except String PyDeltas :=
  let weightSum := weightSumAt m x y
  (nbhd x y).foldl (fun acc p =>
    match acc with
    | Except.error e => Except.error e
    | Except.ok d0 =>
      if p.1 = x ∧ p.2 = y then
        match d0.write p.2 p.1 (waterToSpread * weight 0 / weightSum - waterToSpread) with
        | some d1 => Except.ok d1
        | none => Except.error "IndexError"
      else
        match d0.write p.2 p.1 (waterToSpread * weight 0 / weightSum) with
        | some d1 => Except.ok d1
        | none => Except.ok d0) (Except.ok d)

/-- Lines 106-125, one cell of the first pass of `tick`: skip the cell if
`getWater(x, y) < minFloodHeight`, otherwise spread
`waterToSpread = getWater(x, y)`. -/
def processCell (m : hgtMap) (x y : ℤ) (d : PyDeltas) : Except String PyDeltas :=
  match m.getWater x y with
  | Except.error e => Except.error e
  | Except.ok wxy =>
    if wxy < m.minFloodHeight then Except.ok d
    else spreadCell m x y wxy d

/-- `range(n)` as a list of integers. -/
def intRange (n : ℤ) : List ℤ :=
  (List.range n.toNat).map (fun k => (k : ℤ))

/-- Lines 103-125: the whole first pass of `tick`, `x` outer, `y` inner,
over the delta storage of line 103. -/
def tickDeltas (m : hgtMap) : Except String PyDeltas :=
  (intRange (m.maxX + 1)).foldl (fun acc x =>
    (intRange (m.maxY + 1)).foldl (fun acc2 y =>
      match acc2 with
      | Except.error e => Except.error e
      | Except.ok d => processCell m x y d) acc)
    (Except.ok (mkDeltas (m.maxX + 1).toNat (m.maxY + 1).toNat))

/-- Lines 126-128: the second pass,
`setWater(x, y, getWater(x, y) + deltas[y][x])` for every cell. -/
def applyDeltas (m : hgtMap) (d : PyDeltas) : Except String hgtMap :=
  (intRange (m.maxX + 1)).foldl (fun acc x =>
    (intRange (m.maxY + 1)).foldl (fun acc2 y =>
      match acc2 with
      | Except.error e => Except.error e
      | Except.ok m0 =>
        match m0.getWater x y with
        | Except.error e => Except.error e
        | Except.ok w =>
          match d.read y x with
          | none => Except.error "IndexError"
          | some dv => m0.setWater x y (w + dv)) acc) (Except.ok m)

/-- `tick` (lines 102-129): first pass building the deltas, second pass
applying them. -/
def tick (m : hgtMap) : Except String hgtMap :=
  match tickDeltas m with
  | Except.error e => Except.error e
  | Except.ok d => applyDeltas m d

/-- Total water over the grid. -/
def totalWater (m : hgtMap) : ℝ :=
  (m.data.map (fun row => (row.map Prod.snd).sum)).sum

/-- The water at `(x, y)` after one tick (0 if the tick raised). -/
def tickWaterAt (m : hgtMap) (x y : ℤ) : ℝ :=
  match tick m with
  | Except.ok r => r.waterAt x y
  | Except.error _ => 0

/-- The total water after one tick (0 if the tick raised). -/
def tickTotal (m : hgtMap) : ℝ :=
  match tick m with
  | Except.ok r => totalWater r
  | Except.error _ => 0

/-- Whether `tick` ran to completion without an uncaught exception. -/
def tickOk (m : hgtMap) : Bool :=
  match tick m with
  | Except.ok _ => true
  | Except.error _ => false

/-- Every cell's water level is non-negative. -/
def watersNonneg (m : hgtMap) : Prop :=
  ∀ row ∈ m.data, ∀ c ∈ row, 0 ≤ c.2

/-- 3x3 flat grid, `minFloodHeight = 1`, center water 100, rest 0: the
mass-conservation scenario (every processed cell is interior). -/
def gConserve : hgtMap :=
  ⟨[[(0, 0), (0, 0), (0, 0)],
    [(0, 0), (0, 100), (0, 0)],
    [(0, 0), (0, 0), (0, 0)]], 1⟩

/-- 3x3 flat grid, `minFloodHeight = 0`, center water 100, rest 0: the
spec's flat-terrain scenario. -/
def gFlat : hgtMap :=
  ⟨[[(0, 0), (0, 0), (0, 0)],
    [(0, 0), (0, 100), (0, 0)],
    [(0, 0), (0, 0), (0, 0)]], 0⟩

/-- 1-column, 2-row flat grid, `minFloodHeight = 0`, water 0 at `(0,0)`
and 100 at `(0,1)`. -/
def gNeg : hgtMap :=
  ⟨[[(0, 0)], [(0, 100)]], 0⟩

/-- 1x1 flat grid with water 5, `minFloodHeight = 0`. -/
def gOne : hgtMap :=
  ⟨[[(0, 5)]], 0⟩

/-- 1-row grid: cell `(0,0)` has height 0 and water 90, cell `(1,0)` has
height 6 and water 0; `minFloodHeight = 0`. -/
def gSlope : hgtMap :=
  ⟨[[(0, 90), (6, 0)]], 0⟩

/-- 1-row, 2-column flat dry grid for the `setWater` experiments. -/
def gTwo : hgtMap :=
  ⟨[[(0, 0), (0, 0)]], 0⟩

/-! ## Properties of the weight function -/

lemma base_pos : (0 : ℝ) < 2.71828 := by norm_num

lemma base_gt_one : (1 : ℝ) < 2.71828 := by norm_num

lemma rpow_term_pos (x : ℝ) : 0 < (2.71828 : ℝ) ^ x :=
  Real.rpow_pos_of_pos base_pos x

lemma weight_pos (d : ℝ) : 0 < weight d := by
  have h := rpow_term_pos (-1 * d / 3)
  unfold weight
  positivity

lemma weight_zero : weight 0 = 1 / 2 := by
  have h : (-1 * (0 : ℝ) / 3) = 0 := by norm_num
  rw [weight, h, Real.rpow_zero]
  norm_num

lemma weight_strictMono : StrictMono weight := by
  intro a b hab
  unfold weight
  have h1 : (2.71828 : ℝ) ^ (-1 * b / 3) < (2.71828 : ℝ) ^ (-1 * a / 3) := by
    apply (Real.rpow_lt_rpow_left_iff base_gt_one).mpr
    linarith
  have h2 : 0 < 1 + (2.71828 : ℝ) ^ (-1 * b / 3) := by
    have := rpow_term_pos (-1 * b / 3); linarith
  have h3 : 0 < 1 + (2.71828 : ℝ) ^ (-1 * a / 3) := by
    have := rpow_term_pos (-1 * a / 3); linarith
  apply div_lt_div_of_pos_left one_pos h2
  linarith

lemma weight_symm (d : ℝ) : weight d + weight (-d) = 1 := by
  unfold weight
  have ha : (2.71828 : ℝ) ^ (-1 * d / 3) = ((2.71828 : ℝ) ^ (d / 3))⁻¹ := by
    rw [show (-1 * d / 3 : ℝ) = -(d / 3) by ring, Real.rpow_neg (le_of_lt base_pos)]
  have hb : (2.71828 : ℝ) ^ (-1 * -d / 3) = (2.71828 : ℝ) ^ (d / 3) := by
    norm_num
  have hc : 0 < (2.71828 : ℝ) ^ (d / 3) := rpow_term_pos _
  rw [ha, hb]
  field_simp
  ring

/-- The `weightSum` of every processed cell is strictly positive: it is a
sum of nine strictly positive weights. -/
lemma weightSumAt_pos (m : hgtMap) (x y : ℤ) : 0 < weightSumAt m x y := by
  rw [weightSumAt]
  apply List.sum_pos
  · intro z hz
    simp only [List.mem_map] at hz
    obtain ⟨p, _, rfl⟩ := hz
    exact weight_pos _
  · simp [nbhd]

/-! ## Evaluating one cell of the first pass -/

lemma processCell_skip (m : hgtMap) (x y : ℤ) (d : PyDeltas) (wxy : ℝ)
    (h : m.getWater x y = Except.ok wxy) (hlt : wxy < m.minFloodHeight) :
    processCell m x y d = Except.ok d := by
  rw [processCell, h]
  simp [hlt]

lemma processCell_spread (m : hgtMap) (x y : ℤ) (d : PyDeltas) (wxy : ℝ)
    (h : m.getWater x y = Except.ok wxy) (hge : ¬ wxy < m.minFloodHeight) :
    processCell m x y d = spreadCell m x y wxy d := by
  rw [processCell, h]
  simp [hge]

/-! ## Evaluating `tick` on the conservation scenario

Only the center cell `(1, 1)` is processed (every other cell holds water
`0 < minFloodHeight = 1`).  The center writes its neighbour share into
every column of the single shared delta row; its own center delta, written
at `(i, j) = (1, 1)`, is immediately overwritten by the write for
neighbour `(i, j) = (1, 2)`, which lands in the same shared row. -/

lemma tickDeltas_gConserve :
    tickDeltas gConserve = Except.ok ⟨[0, 0, 0],
      [[100 * weight 0 / weightSumAt gConserve 1 1,
        100 * weight 0 / weightSumAt gConserve 1 1,
        100 * weight 0 / weightSumAt gConserve 1 1]]⟩ := by
  have hs00 : ∀ d, processCell gConserve 0 0 d = Except.ok d := fun d =>
    processCell_skip _ _ _ _ 0 rfl (by norm_num [gConserve])
  have hs01 : ∀ d, processCell gConserve 0 1 d = Except.ok d := fun d =>
    processCell_skip _ _ _ _ 0 rfl (by norm_num [gConserve])
  have hs02 : ∀ d, processCell gConserve 0 2 d = Except.ok d := fun d =>
    processCell_skip _ _ _ _ 0 rfl (by norm_num [gConserve])
  have hs10 : ∀ d, processCell gConserve 1 0 d = Except.ok d := fun d =>
    processCell_skip _ _ _ _ 0 rfl (by norm_num [gConserve])
  have hs12 : ∀ d, processCell gConserve 1 2 d = Except.ok d := fun d =>
    processCell_skip _ _ _ _ 0 rfl (by norm_num [gConserve])
  have hs20 : ∀ d, processCell gConserve 2 0 d = Except.ok d := fun d =>
    processCell_skip _ _ _ _ 0 rfl (by norm_num [gConserve])
  have hs21 : ∀ d, processCell gConserve 2 1 d = Except.ok d := fun d =>
    processCell_skip _ _ _ _ 0 rfl (by norm_num [gConserve])
  have hs22 : ∀ d, processCell gConserve 2 2 d = Except.ok d := fun d =>
    processCell_skip _ _ _ _ 0 rfl (by norm_num [gConserve])
  have hc : ∀ d, processCell gConserve 1 1 d = spreadCell gConserve 1 1 100 d := fun d =>
    processCell_spread _ _ _ _ 100 rfl (by norm_num [gConserve])
  rw [tickDeltas]
  rw [show intRange (gConserve.maxX + 1) = [0, 1, 2] from rfl]
  rw [show intRange (gConserve.maxY + 1) = [0, 1, 2] from rfl]
  simp only [List.foldl_cons, List.foldl_nil, hs00, hs01, hs02, hs10, hs12,
    hs20, hs21, hs22, hc]
  rfl

lemma ws_gConserve : weightSumAt gConserve 1 1 = 9 / 2 := by
  rw [weightSumAt]
  rw [show (nbhd 1 1).map
      (fun p => weight (gConserve.getHeight p.1 p.2 - gConserve.getHeight 1 1)) =
      [weight (0 - 0), weight (0 - 0), weight (0 - 0), weight (0 - 0), weight (0 - 0),
       weight (0 - 0), weight (0 - 0), weight (0 - 0), weight (0 - 0)] from rfl]
  norm_num [List.sum_cons, weight_zero]

lemma tick_gConserve :
    tick gConserve = Except.ok
      ⟨[[(0, 0 + 100 * weight 0 / weightSumAt gConserve 1 1),
         (0, 0 + 100 * weight 0 / weightSumAt gConserve 1 1),
         (0, 0 + 100 * weight 0 / weightSumAt gConserve 1 1)],
        [(0, 0 + 100 * weight 0 / weightSumAt gConserve 1 1),
         (0, 100 + 100 * weight 0 / weightSumAt gConserve 1 1),
         (0, 0 + 100 * weight 0 / weightSumAt gConserve 1 1)],
        [(0, 0 + 100 * weight 0 / weightSumAt gConserve 1 1),
         (0, 0 + 100 * weight 0 / weightSumAt gConserve 1 1),
         (0, 0 + 100 * weight 0 / weightSumAt gConserve 1 1)]], 1⟩ := by
  rw [tick, tickDeltas_gConserve]
  rfl

/-! ## Evaluating `tick` on the flat-terrain scenario

Every cell is processed (`minFloodHeight = 0`).  Each later processed cell
assigns over the shared delta row, so after the whole pass every slot
holds a value assigned by a zero-water cell (column 0 last written by cell
`(1, 2)`, columns 1 and 2 last written by cell `(2, 2)`), and the grid is
left unchanged. -/

lemma tickDeltas_gFlat :
    tickDeltas gFlat = Except.ok ⟨[0, 0, 0],
      [[0 * weight 0 / weightSumAt gFlat 1 2,
        0 * weight 0 / weightSumAt gFlat 2 2,
        0 * weight 0 / weightSumAt gFlat 2 2 - 0]]⟩ := by
  have hp00 : ∀ d, processCell gFlat 0 0 d = spreadCell gFlat 0 0 0 d := fun d =>
    processCell_spread _ _ _ _ 0 rfl (by norm_num [gFlat])
  have hp01 : ∀ d, processCell gFlat 0 1 d = spreadCell gFlat 0 1 0 d := fun d =>
    processCell_spread _ _ _ _ 0 rfl (by norm_num [gFlat])
  have hp02 : ∀ d, processCell gFlat 0 2 d = spreadCell gFlat 0 2 0 d := fun d =>
    processCell_spread _ _ _ _ 0 rfl (by norm_num [gFlat])
  have hp10 : ∀ d, processCell gFlat 1 0 d = spreadCell gFlat 1 0 0 d := fun d =>
    processCell_spread _ _ _ _ 0 rfl (by norm_num [gFlat])
  have hp11 : ∀ d, processCell gFlat 1 1 d = spreadCell gFlat 1 1 100 d := fun d =>
    processCell_spread _ _ _ _ 100 rfl (by norm_num [gFlat])
  have hp12 : ∀ d, processCell gFlat 1 2 d = spreadCell gFlat 1 2 0 d := fun d =>
    processCell_spread _ _ _ _ 0 rfl (by norm_num [gFlat])
  have hp20 : ∀ d, processCell gFlat 2 0 d = spreadCell gFlat 2 0 0 d := fun d =>
    processCell_spread _ _ _ _ 0 rfl (by norm_num [gFlat])
  have hp21 : ∀ d, processCell gFlat 2 1 d = spreadCell gFlat 2 1 0 d := fun d =>
    processCell_spread _ _ _ _ 0 rfl (by norm_num [gFlat])
  have hp22 : ∀ d, processCell gFlat 2 2 d = spreadCell gFlat 2 2 0 d := fun d =>
    processCell_spread _ _ _ _ 0 rfl (by norm_num [gFlat])
  rw [tickDeltas]
  rw [show intRange (gFlat.maxX + 1) = [0, 1, 2] from rfl]
  rw [show intRange (gFlat.maxY + 1) = [0, 1, 2] from rfl]
  simp only [List.foldl_cons, List.foldl_nil, hp00, hp01, hp02, hp10, hp11, hp12,
    hp20, hp21, hp22]
  rfl

lemma tick_gFlat :
    tick gFlat = Except.ok
      ⟨[[(0, 0 + 0 * weight 0 / weightSumAt gFlat 1 2),
         (0, 0 + 0 * weight 0 / weightSumAt gFlat 2 2),
         (0, 0 + (0 * weight 0 / weightSumAt gFlat 2 2 - 0))],
        [(0, 0 + 0 * weight 0 / weightSumAt gFlat 1 2),
         (0, 100 + 0 * weight 0 / weightSumAt gFlat 2 2),
         (0, 0 + (0 * weight 0 / weightSumAt gFlat 2 2 - 0))],
        [(0, 0 + 0 * weight 0 / weightSumAt gFlat 1 2),
         (0, 0 + 0 * weight 0 / weightSumAt gFlat 2 2),
         (0, 0 + (0 * weight 0 / weightSumAt gFlat 2 2 - 0))]], 0⟩ := by
  rw [tick, tickDeltas_gFlat]
  rfl

/-! ## Evaluating `tick` on the negative-water scenario

Both cells are processed.  Cell `(0, 1)`, processed last, is the last
writer of the single delta slot; the last successful write of its
neighbourhood pass is its own center delta (the writes after it all raise
and are swallowed), so the shared slot ends at
`100 * weight 0 / weightSum - 100`, which is then applied to BOTH rows. -/

lemma tickDeltas_gNeg :
    tickDeltas gNeg = Except.ok ⟨[0, 0],
      [[100 * weight 0 / weightSumAt gNeg 0 1 - 100]]⟩ := by
  have hp0 : ∀ d, processCell gNeg 0 0 d = spreadCell gNeg 0 0 0 d := fun d =>
    processCell_spread _ _ _ _ 0 rfl (by norm_num [gNeg])
  have hp1 : ∀ d, processCell gNeg 0 1 d = spreadCell gNeg 0 1 100 d := fun d =>
    processCell_spread _ _ _ _ 100 rfl (by norm_num [gNeg])
  rw [tickDeltas]
  rw [show intRange (gNeg.maxX + 1) = [0] from rfl]
  rw [show intRange (gNeg.maxY + 1) = [0, 1] from rfl]
  simp only [List.foldl_cons, List.foldl_nil, hp0, hp1]
  rfl

lemma tick_gNeg :
    tick gNeg = Except.ok
      ⟨[[(0, 0 + (100 * weight 0 / weightSumAt gNeg 0 1 - 100))],
        [(0, 100 + (100 * weight 0 / weightSumAt gNeg 0 1 - 100))]], 0⟩ := by
  rw [tick, tickDeltas_gNeg]
  rfl

lemma ws_gNeg_ge_one : (1 : ℝ) ≤ weightSumAt gNeg 0 1 := by
  rw [weightSumAt]
  rw [show (nbhd 0 1).map
      (fun p => weight (gNeg.getHeight p.1 p.2 - gNeg.getHeight 0 1)) =
      [weight (10000000 - 0), weight (10000000 - 0), weight (10000000 - 0),
       weight (0 - 0), weight (0 - 0), weight (10000000 - 0),
       weight (10000000 - 0), weight (10000000 - 0), weight (10000000 - 0)] from rfl]
  simp only [List.sum_cons, List.sum_nil]
  norm_num [weight_zero]
  linarith [weight_pos (10000000 : ℝ)]

/-! ## Evaluating `tick` on the 1x1 grid -/

lemma tickDeltas_gOne :
    tickDeltas gOne = Except.ok ⟨[0],
      [[5 * weight 0 / weightSumAt gOne 0 0 - 5]]⟩ := by
  have hp : ∀ d, processCell gOne 0 0 d = spreadCell gOne 0 0 5 d := fun d =>
    processCell_spread _ _ _ _ 5 rfl (by norm_num [gOne])
  rw [tickDeltas]
  rw [show intRange (gOne.maxX + 1) = [0] from rfl]
  rw [show intRange (gOne.maxY + 1) = [0] from rfl]
  simp only [List.foldl_cons, List.foldl_nil, hp]
  rfl

lemma tick_gOne :
    tick gOne = Except.ok
      ⟨[[(0, 5 + (5 * weight 0 / weightSumAt gOne 0 0 - 5))]], 0⟩ := by
  rw [tick, tickDeltas_gOne]
  rfl

lemma ws_gOne : weightSumAt gOne 0 0 = weight 0 + 8 * weight 10000000 := by
  rw [weightSumAt]
  rw [show (nbhd 0 0).map
      (fun p => weight (gOne.getHeight p.1 p.2 - gOne.getHeight 0 0)) =
      [weight (10000000 - 0), weight (10000000 - 0), weight (10000000 - 0),
       weight (10000000 - 0), weight (0 - 0), weight (10000000 - 0),
       weight (10000000 - 0), weight (10000000 - 0), weight (10000000 - 0)] from rfl]
  simp only [List.sum_cons, List.sum_nil]
  norm_num
  ring

/-! ## The coordinate round trip -/

/-- For a truncation argument in `[0, 1201)`, the truncate-then-clamp
pipeline of `latLongToPointApprox` is just the floor. -/
lemma clamp_floor (v : ℚ) (h0 : 0 ≤ v) (h1 : v < 1201) :
    (if (if pyTrunc v > 1200 then 1200 else pyTrunc v) < 0 then 0
     else if pyTrunc v > 1200 then 1200 else pyTrunc v) = ⌊v⌋ := by
  have ht : pyTrunc v = ⌊v⌋ := by
    rw [pyTrunc, if_neg (not_lt.mpr h0)]
  have hle : ⌊v⌋ ≤ 1200 := by
    have : ⌊v⌋ < 1201 := Int.floor_lt.mpr (by exact_mod_cast h1)
    omega
  have hge : (0 : ℤ) ≤ ⌊v⌋ := Int.floor_nonneg.mpr h0
  rw [ht]
  rw [if_neg (show ¬ ⌊v⌋ > 1200 by omega)]
  rw [if_neg (show ¬ ⌊v⌋ < 0 by omega)]

/-! ## The claims -/

/-- C1: the spec says each of the 8 neighbours of a processed cell
receives `w0 * weight(height(neighbor) - height(x,y)) / weightSum`.  The
code (line 123) assigns `waterToSpread * weight(0) / weightSum` to every
neighbour — the per-neighbour weight appears only in the denominator's
sum, never in the numerator.  On a two-cell grid where the neighbour is 6
units higher, the value the code writes differs from the specified
share. -/
theorem claim_C1_neighbor_share_uses_weight_zero :
    neighborShare gSlope 0 0 ≠ specNeighborShare gSlope 0 0 1 0 := by
  have hws : 0 < weightSumAt gSlope 0 0 := weightSumAt_pos _ _ _
  intro h
  rw [neighborShare, specNeighborShare] at h
  rw [show hgtMap.waterAt gSlope 0 0 = 90 from rfl] at h
  rw [show hgtMap.getHeight gSlope 1 0 = 6 from rfl,
      show hgtMap.getHeight gSlope 0 0 = 0 from rfl] at h
  rw [show (6 : ℝ) - 0 = 6 by norm_num] at h
  have h2 := congrArg (fun z => z * weightSumAt gSlope 0 0) h
  simp only [div_mul_cancel₀ _ (ne_of_gt hws)] at h2
  have h3 := mul_left_cancel₀ (by norm_num : (90 : ℝ) ≠ 0) h2
  have hmono : weight 0 < weight 6 := weight_strictMono (by norm_num)
  linarith

/-- C2: the spec says delta contributions are accumulated into a delta
grid whose rows are independent, a write for one cell leaving every other
cell's stored delta unchanged.  In the delta storage the code builds at
line 103 (`[[0] * (maxX+1)] * (maxY+1)`) all rows alias one list: for a
3x3 map, the slot for cell `(i, j) = (1, 0)` starts at 0, but after the
single write for cell `(1, 1)` it reads 5; and a later write for `(1, 0)`
overwrites (rather than adds to) the value stored for `(1, 1)`. -/
theorem claim_C2_delta_rows_shared :
    (mkDeltas 3 3).read 0 1 = some 0 ∧
    ((mkDeltas 3 3).write 1 1 5).bind (fun d => PyDeltas.read d 0 1) = some 5 ∧
    (((mkDeltas 3 3).write 1 1 5).bind (fun d => PyDeltas.write d 0 1 7)).bind
      (fun d => PyDeltas.read d 1 1) = some 7 :=
  ⟨rfl, rfl, rfl⟩

/-- C3: mass conservation fails.  On the 3x3 flat grid with
`minFloodHeight = 1` and 100 units of water at the interior center (so no
processed cell's neighbourhood leaves the grid and no border cell is
processed), one tick turns a total of 100 into a total of 200: the center
cell's `-w0` net delta is overwritten in the shared delta row, so every
one of the 9 cells gains `100/9` while the center loses nothing. -/
theorem claim_C3_mass_not_conserved :
    totalWater gConserve = 100 ∧ tickOk gConserve = true ∧ tickTotal gConserve = 200 := by
  refine ⟨by norm_num [totalWater, gConserve], ?_, ?_⟩
  · rw [tickOk, tick_gConserve]
  · rw [tickTotal, tick_gConserve]
    norm_num [totalWater, ws_gConserve, weight_zero]

/-- C4: the flat-terrain scenario does not end with `100/9` everywhere.
On the 3x3 all-zero-elevation grid with `minFloodHeight = 0` and water
100 at the center, every cell is processed (water `0 ≥ 0` included), and
each later processed zero-water cell assigns zeros over the single shared
delta row; after one tick the grid is unchanged: the corner holds 0 (not
`100/9`) and the center still holds 100.  The total does remain 100, but
only because nothing moved. -/
theorem claim_C4_flat_scenario_unchanged :
    tickOk gFlat = true ∧ tickWaterAt gFlat 0 0 = 0 ∧ tickWaterAt gFlat 1 1 = 100 ∧
    tickWaterAt gFlat 1 1 ≠ 100 / 9 ∧ tickTotal gFlat = 100 := by
  refine ⟨?_, ?_, ?_, ?_, ?_⟩
  · rw [tickOk, tick_gFlat]
  · rw [tickWaterAt, tick_gFlat]
    norm_num [hgtMap.waterAt]
  · rw [tickWaterAt, tick_gFlat]
    norm_num [hgtMap.waterAt]
  · rw [tickWaterAt, tick_gFlat]
    norm_num [hgtMap.waterAt]
  · rw [tickTotal, tick_gFlat]
    norm_num [totalWater]

/-- C5 counterexample: the claim says a processed edge cell's `weightSum`
ranges only over its in-bounds 3x3 neighbours.  For the 1x1 grid the only
in-bounds neighbour of `(0, 0)` is itself, whose term is `weight 0`; the
`weightSum` the code computes differs from that. -/
theorem claim_C5_counterexample : weightSumAt gOne 0 0 ≠ weight 0 := by
  rw [ws_gOne]
  have := weight_pos (10000000 : ℝ)
  intro h
  linarith

/-- C5 amended: an off-grid neighbour never has water applied to it (the
second pass writes only in-bounds cells), but it IS counted in
`weightSum`: `getHeight` returns the sentinel 10000000 off-grid, and each
off-grid neighbour contributes the strictly positive term
`weight (10000000 - midHeight)`, so an edge cell's `weightSum` strictly
exceeds the in-bounds-only sum (here `weight 0`). -/
theorem claim_C5_offgrid_sentinel_in_weightSum :
    weightSumAt gOne 0 0 = weight 0 + 8 * weight 10000000 ∧
    hgtMap.getHeight gOne 1 0 = 10000000 ∧
    hgtMap.getHeight gOne (-1) 0 = 10000000 ∧
    0 < weight 10000000 ∧
    weight 0 < weightSumAt gOne 0 0 := by
  refine ⟨ws_gOne, rfl, rfl, weight_pos _, ?_⟩
  rw [ws_gOne]
  have := weight_pos (10000000 : ℝ)
  linarith

/-- C6: the weight function `weight(delta) = 1 / (1 + 2.71828^(-delta/3))`
satisfies `weight 0 = 1/2` exactly, is strictly increasing, and satisfies
`weight d + weight (-d) = 1` for every `d`. -/
theorem claim_C6_weight_properties :
    weight 0 = 1 / 2 ∧ StrictMono weight ∧ ∀ d : ℝ, weight d + weight (-d) = 1 :=
  ⟨weight_zero, weight_strictMono, weight_symm⟩

/-- C7 counterexample: the claim says any bounds violation arising from
per-cell computation aborts the simulation.  During `tick` on the 1x1
grid, the neighbour write `deltas[1][-1] = ...` raises (the write on the
delta storage returns `none`, Python's `IndexError`), yet the tick runs
to completion. -/
theorem claim_C7_counterexample :
    PyDeltas.write ⟨[0], [[5 * weight 0 / weightSumAt gOne 0 0]]⟩ 1 (-1)
      (5 * weight 0 / weightSumAt gOne 0 0) = none ∧
    tickOk gOne = true := by
  refine ⟨rfl, ?_⟩
  rw [tickOk, tick_gOne]

/-- C7 amended: an out-of-bounds water READ does always fail loudly with
the `getWater` error, but during a tick the out-of-range neighbour delta
writes of the per-cell computation are caught by the blanket
`try/except: pass` (lines 122-125) and discarded: the tick on the 1x1
grid, whose every neighbourhood pass raises such violations, completes
normally instead of aborting. -/
theorem claim_C7_getWater_raises_tick_swallows :
    (∀ (m : hgtMap) (x y : ℤ), (x > m.maxX ∨ y > m.maxY ∨ x < 0 ∨ y < 0) →
      m.getWater x y = Except.error "accessed an invalid position in method getWater") ∧
    tickOk gOne = true := by
  constructor
  · intro m x y h
    rw [hgtMap.getWater, if_pos h]
  · rw [tickOk, tick_gOne]

/-- C8 counterexample: the claim says an out-of-bounds `setWater` never
modifies any cell.  On a 1-row 2-column grid, `setWater(-1, 0, 42)`
succeeds and modifies cell `(1, 0)` (Python's negative index wraps to the
last column), whose water was 0. -/
theorem claim_C8_counterexample :
    hgtMap.setWater gTwo (-1) 0 42 = Except.ok ⟨[[(0, 0), (0, 42)]], 0⟩ ∧
    hgtMap.waterAt gTwo 1 0 = 0 :=
  ⟨rfl, rfl⟩

/-- C8 amended: the bounds guard of `setWater` (line 73-74) has `pass` as
its body, so the write at line 75 is unconditional, with Python's index
semantics: a coordinate past the end raises `IndexError` (grid
unchanged), while a negative coordinate down to minus the dimension wraps
around and silently modifies the cell at the wrapped index. -/
theorem claim_C8_setWater_unconditional_write :
    (∀ v : ℝ, hgtMap.setWater gTwo 2 0 v = Except.error "IndexError") ∧
    (∀ v : ℝ, hgtMap.setWater gTwo 0 1 v = Except.error "IndexError") ∧
    (∀ v : ℝ, hgtMap.setWater gTwo (-1) 0 v = Except.ok ⟨[[(0, 0), (0, v)]], 0⟩) :=
  ⟨fun _ => rfl, fun _ => rfl, fun _ => rfl⟩

/-- C9: water goes negative.  On a 1-column 2-row flat grid with all
waters non-negative (0 above, 100 below), the bottom cell's center delta
`100 * weight 0 / weightSum - 100` is the last write to the single shared
delta slot and is applied to BOTH rows, driving the top cell's water to
about `-93.7 < 0`. -/
theorem claim_C9_water_goes_negative :
    watersNonneg gNeg ∧ tickWaterAt gNeg 0 0 < 0 := by
  constructor
  · intro row hr c hc
    simp only [gNeg, List.mem_cons, List.not_mem_nil, or_false] at hr
    rcases hr with h | h <;> subst h <;>
      simp only [List.mem_cons, List.not_mem_nil, or_false] at hc <;>
      subst hc <;> norm_num
  · rw [tickWaterAt, tick_gNeg]
    have hws := ws_gNeg_ge_one
    have hpos : (0 : ℝ) < weightSumAt gNeg 0 1 := lt_of_lt_of_le one_pos hws
    show (0 : ℝ) + (100 * weight 0 / weightSumAt gNeg 0 1 - 100) < 0
    rw [weight_zero]
    have h50 : (100 : ℝ) * (1 / 2) / weightSumAt gNeg 0 1 ≤ 50 := by
      rw [show (100 : ℝ) * (1 / 2) = 50 by norm_num]
      exact div_le_self (by norm_num) hws
    linarith

/-- C10: for interior points of the tile (latitude in `(40, 41]`,
longitude in `(-74, -73]`, excluding the clamp zone), the round trip
`pointToLatLong (latLongToPointApprox lat long)` lands within one grid
step (`1/1201` of a degree) of the original point in each component. -/
theorem claim_C10_roundtrip (lat long : ℚ) (h1 : 40 < lat) (h2 : lat ≤ 41)
    (h3 : -74 < long) (h4 : long ≤ -73) :
    |(hgtMap.pointToLatLong (hgtMap.latLongToPointApprox lat long).1
        (hgtMap.latLongToPointApprox lat long).2).1 - lat| < 1 / 1201 ∧
    |(hgtMap.pointToLatLong (hgtMap.latLongToPointApprox lat long).1
        (hgtMap.latLongToPointApprox lat long).2).2 - long| < 1 / 1201 := by
  have hu0 : (0 : ℚ) ≤ -1201 * (lat - 41) := by nlinarith
  have hu1 : -1201 * (lat - 41) < 1201 := by nlinarith
  have hw0 : (0 : ℚ) ≤ -1201 * (long + 73) := by nlinarith
  have hw1 : -1201 * (long + 73) < 1201 := by nlinarith
  have hpt : hgtMap.latLongToPointApprox lat long =
      (⌊-1201 * (long + 73)⌋, ⌊-1201 * (lat - 41)⌋) := by
    simp only [hgtMap.latLongToPointApprox]
    rw [clamp_floor _ hw0 hw1, clamp_floor _ hu0 hu1]
  rw [hpt]
  simp only [hgtMap.pointToLatLong]
  constructor
  · have he : 41 - (⌊-1201 * (lat - 41)⌋ : ℚ) * 1 / 1201 - lat =
        (-1201 * (lat - 41) - ⌊-1201 * (lat - 41)⌋) / 1201 := by
      ring
    rw [he]
    have hf0 : (0 : ℚ) ≤ -1201 * (lat - 41) - ⌊-1201 * (lat - 41)⌋ := by
      have := Int.floor_le (-1201 * (lat - 41))
      linarith
    have hf1 : -1201 * (lat - 41) - ⌊-1201 * (lat - 41)⌋ < 1 := by
      have := Int.lt_floor_add_one (-1201 * (lat - 41))
      linarith
    rw [abs_of_nonneg (by positivity)]
    linarith
  · have he : -(73 + (⌊-1201 * (long + 73)⌋ : ℚ) * 1 / 1201) - long =
        (-1201 * (long + 73) - ⌊-1201 * (long + 73)⌋) / 1201 := by
      ring
    rw [he]
    have hf0 : (0 : ℚ) ≤ -1201 * (long + 73) - ⌊-1201 * (long + 73)⌋ := by
      have := Int.floor_le (-1201 * (long + 73))
      linarith
    have hf1 : -1201 * (long + 73) - ⌊-1201 * (long + 73)⌋ < 1 := by
      have := Int.lt_floor_add_one (-1201 * (long + 73))
      linarith
    rw [abs_of_nonneg (by positivity)]
    linarith

/-- C10 witness: the round trip at the concrete interior point
`(40.5, -73.5)`. -/
theorem claim_C10_roundtrip_witness :
    (40 : ℚ) < 40.5 ∧ (40.5 : ℚ) ≤ 41 ∧ (-74 : ℚ) < -73.5 ∧ (-73.5 : ℚ) ≤ -73 ∧
    (|(hgtMap.pointToLatLong (hgtMap.latLongToPointApprox 40.5 (-73.5)).1
        (hgtMap.latLongToPointApprox 40.5 (-73.5)).2).1 - 40.5| < 1 / 1201 ∧
     |(hgtMap.pointToLatLong (hgtMap.latLongToPointApprox 40.5 (-73.5)).1
        (hgtMap.latLongToPointApprox 40.5 (-73.5)).2).2 - (-73.5)| < 1 / 1201) :=
  ⟨by norm_num, by norm_num, by norm_num, by norm_num,
   claim_C10_roundtrip 40.5 (-73.5) (by norm_num) (by norm_num) (by norm_num) (by norm_num)⟩

end
